import Mathlib

/-!
Shallow embedding of the request-forwarding / circuit-breaker core of the
`mikro_task_template` repository (an API gateway in `src/api_gateway/index.js`
in front of a users service `src/service_users/index.js` and an orders service
`src/service_orders/index.js`), together with the parts of the users service
that the verified claims mention.

Conventions of the embedding:
* JSON envelopes `{success, data?, error?}` become the `Envelope` structure,
  with `Option` for fields that may be absent (JS `undefined`).
* JS objects whose key set matters (the sanitized user payload) become
  association lists `List (String × JVal)` in construction order.
* The opaque cryptographic collaborators (bcrypt comparison, JWT signing and
  verification) are passed as function parameters.
* Machinery of the third-party libraries the gateway configures (`axios`
  default `validateStatus`, the `opossum` breaker's success/failure
  accounting, `express-rate-limit`'s fixed window counter) is embedded
  following the libraries' documented behaviour, with all configuration taken
  from the repository source.
-/

set_option autoImplicit false

namespace MikroTask

/-- The `error` part of the uniform response envelope:
`{ code: string, message: string }` (spec §3, exchanged by every service). -/
structure ErrorInfo where
  code : String
  message : String
deriving Repr, DecidableEq

/-- The uniform response envelope `{ success: bool, data?: any, error?: {...} }`
exchanged with the backends (spec §3).  `data`/`error` are `Option` because a
JS object may lack either field. -/
structure Envelope (α : Type) where
  success : Bool
  data : Option α := none
  error : Option ErrorInfo := none
deriving Repr, DecidableEq

/-- `result.error?.code` — the optional-chained error-code read used by the
forwarder in `src/api_gateway/index.js:182-186`. -/
def errCode {α : Type} (result : Envelope α) : Option String :=
  result.error.map ErrorInfo.code

/-- The forwarder's envelope-to-status mapping, embedded from the ternary
chain in `forwardRequest`, `src/api_gateway/index.js:181-187`:

```
const statusCode = result.success ? 200 :
                  result.error?.code === 'VALIDATION_ERROR' ? 400 :
                  result.error?.code === 'UNAUTHORIZED' ? 401 :
                  result.error?.code === 'FORBIDDEN' ? 403 :
                  result.error?.code === 'USER_NOT_FOUND' || ... 'ORDER_NOT_FOUND' ? 404 :
                  result.error?.code === 'USER_EXISTS' || ... 'EMAIL_EXISTS' ? 409 :
                  500;
```
-/
def statusCodeOf {α : Type} (result : Envelope α) : Nat :=
  if result.success then 200
  else if errCode result = some "VALIDATION_ERROR" then 400
  else if errCode result = some "UNAUTHORIZED" then 401
  else if errCode result = some "FORBIDDEN" then 403
  else if errCode result = some "USER_NOT_FOUND" ∨ errCode result = some "ORDER_NOT_FOUND" then 404
  else if errCode result = some "USER_EXISTS" ∨ errCode result = some "EMAIL_EXISTS" then 409
  else 500

/-- The fixed fallback envelope installed on the users breaker,
`src/api_gateway/index.js:123-132`. -/
def usersFallbackEnvelope {α : Type} : Envelope α :=
  { success := false
    error := some ⟨"SERVICE_UNAVAILABLE", "Users service temporarily unavailable"⟩ }

/-- The fixed fallback envelope installed on the orders breaker,
`src/api_gateway/index.js:134-143`. -/
def ordersFallbackEnvelope {α : Type} : Envelope α :=
  { success := false
    error := some ⟨"SERVICE_UNAVAILABLE", "Orders service temporarily unavailable"⟩ }

/-- The error codes appearing in a row of the spec's HTTP status mapping table
(spec §6).  This list is transcribed from the SPEC's table (not from the
code) so that the claim "an error code in no row of the table maps to 500"
can be stated and compared against the code's mapping. -/
def specStatusTableCodes : List String :=
  ["VALIDATION_ERROR", "UNAUTHORIZED", "INVALID_TOKEN", "FORBIDDEN",
   "USER_NOT_FOUND", "ORDER_NOT_FOUND", "USER_EXISTS", "EMAIL_EXISTS",
   "SERVICE_UNAVAILABLE", "RATE_LIMIT_EXCEEDED"]

/-! ### Transport and circuit breaker

The breaker actions in `src/api_gateway/index.js:104-120` are
`async (url, options) => { const response = await axios({...}); return response.data; }`.
`axios` resolves only when the HTTP exchange completed with a status accepted
by `validateStatus`; the gateway passes no `validateStatus`, so the default
(`200 <= status < 300`) applies, and a completed response with any other
status rejects the promise exactly like a network error or timeout does. -/

/-- Outcome of one HTTP transport attempt against a backend: a completed
response (status code plus parsed envelope body), a transport-level failure,
or hitting the 5000 ms timeout configured in `src/api_gateway/index.js:108`. -/
inductive TransportResult (α : Type) where
  | ok (status : Nat) (body : α)
  | netError
  | timedOut
deriving Repr, DecidableEq

/-- The breaker action of `src/api_gateway/index.js:104-111` (users) and
`:113-120` (orders): resolves with `response.data` iff axios resolved, i.e.
iff the transport completed with a 2xx status (axios default
`validateStatus`); otherwise the action's promise rejects (`none`). -/
def circuitAction {α : Type} (t : TransportResult α) : Option α :=
  match t with
  | .ok status body => if 200 ≤ status ∧ status < 300 then some body else none
  | .netError => none
  | .timedOut => none

/-- Rolling success/failure counters of one breaker (spec §3 "Breaker
State.rollingStats"). -/
structure BreakerStats where
  successes : Nat := 0
  failures : Nat := 0
deriving Repr, DecidableEq

/-- The `opossum` breaker's per-call accounting for the configured action: a
resolved action is recorded as a breaker success, a rejected or timed-out
action as a breaker failure (the failure also triggers the installed
fallback). -/
def recordCall {α : Type} (st : BreakerStats) (t : TransportResult α) : BreakerStats :=
  match circuitAction t with
  | some _ => { st with successes := st.successes + 1 }
  | none => { st with failures := st.failures + 1 }

/-! ### Users service (`src/service_users/index.js`)

The in-memory store `usersDb` is an object keyed by user id; we embed it as a
list of stored user records (`Object.values` order), with `findUserById`
(`usersDb[id]`) as first-match lookup on the id key. -/

/-- A JSON field value, just rich enough for the stored user record. -/
inductive JVal where
  | str (v : String)
  | list (v : List String)
deriving Repr, DecidableEq

/-- A stored user record, with the fields of the `newUser` literal in the
register handler, `src/service_users/index.js:118-126`. -/
structure User where
  id : String
  email : String
  passwordHash : String
  name : String
  roles : List String
  createdAt : String
  updatedAt : String
deriving Repr, DecidableEq

/-- The in-memory users store `usersDb` (`src/service_users/index.js:27`). -/
abbrev UsersDb := List User

/-- `findUserById` (`src/service_users/index.js:52-54`): `usersDb[id]`. -/
def findUserById (db : UsersDb) (id : String) : Option User :=
  db.find? (fun u => u.id == id)

/-- `findUserByEmail` (`src/service_users/index.js:48-50`). -/
def findUserByEmail (db : UsersDb) (email : String) : Option User :=
  db.find? (fun u => u.email == email)

/-- The JSON object a stored user record denotes, fields in the construction
order of the `newUser` literal (`src/service_users/index.js:118-126`). -/
def userObjFields (u : User) : List (String × JVal) :=
  [("id", .str u.id), ("email", .str u.email), ("passwordHash", .str u.passwordHash),
   ("name", .str u.name), ("roles", .list u.roles),
   ("createdAt", .str u.createdAt), ("updatedAt", .str u.updatedAt)]

/-- `sanitizeUser` (`src/service_users/index.js:68-71`):
`const { passwordHash, ...userWithoutPassword } = user` — the stored record
with the `passwordHash` key removed. -/
def sanitizeUser (u : User) : List (String × JVal) :=
  (userObjFields u).filter (fun kv => kv.1 ≠ "passwordHash")

/-- A sanitized-user JSON object: the payload type of the user-returning
responses. -/
abbrev UserJson := List (String × JVal)

/-- Envelope helper for the repeated
`{success:false, error:{code, message}}` literals. -/
def errEnvelope {α : Type} (code message : String) : Envelope α :=
  { success := false, error := some ⟨code, message⟩ }

/-- The `GET /v1/users/:userId` handler body, `src/service_users/index.js:371-402`:
look the user up; 404 `USER_NOT_FOUND` when absent, else 200 with the
sanitized user. -/
def usersGetById (db : UsersDb) (userId : String) : Nat × Envelope UserJson :=
  match findUserById db userId with
  | none => (404, errEnvelope "USER_NOT_FOUND" "User not found")
  | some u => (200, { success := true, data := some (sanitizeUser u) })

/-- The identity decoded from a verified JWT: the payload signed in
`generateToken` (`src/service_users/index.js:56-66`) is `{id, email, roles}`;
`roles` is `Option` because the gateway reads it with `req.user.roles?.`
(an arbitrary signed payload may lack it). -/
structure Identity where
  id : String
  email : String := ""
  roles : Option (List String) := none
deriving Repr, DecidableEq

/-- The users service `authMiddleware` (`src/unnamed/part_001:6-35`,
the users service's `middleware/auth.js`): reject with 401 `UNAUTHORIZED`
when the `Authorization` header is absent or does not start with `"Bearer "`;
otherwise verify the token (`header.substring(7)`); reject with 401
`INVALID_TOKEN` when verification fails, else pass the decoded identity on.
`verify` is the opaque `jwt.verify` collaborator. -/
def authMiddleware {α : Type} (verify : String → Option Identity)
    (authHeader : Option String) : Except (Nat × Envelope α) Identity :=
  match authHeader with
  | none => .error (401, errEnvelope "UNAUTHORIZED" "No token provided")
  | some h =>
    if h.startsWith "Bearer " then
      match verify (h.drop 7) with
      | some decoded => .ok decoded
      | none => .error (401, errEnvelope "INVALID_TOKEN" "Invalid or expired token")
    else .error (401, errEnvelope "UNAUTHORIZED" "No token provided")

/-- The `GET /v1/users/profile` handler body, `src/service_users/index.js:218-249`. -/
def getProfileHandler (db : UsersDb) (authedId : String) : Nat × Envelope UserJson :=
  match findUserById db authedId with
  | none => (404, errEnvelope "USER_NOT_FOUND" "User not found")
  | some u => (200, { success := true, data := some (sanitizeUser u) })

/-- The route `app.get('/v1/users/profile', authMiddleware, ...)`
(`src/service_users/index.js:218`): the middleware runs first. -/
def getProfileRoute (db : UsersDb) (verify : String → Option Identity)
    (authHeader : Option String) : Nat × Envelope UserJson :=
  match authMiddleware verify authHeader with
  | .error e => e
  | .ok user => getProfileHandler db user.id

/-- A validated `PUT /v1/users/profile` body (`updateProfileSchema`,
`src/service_users/index.js:42-45`): optional `name`, optional `email`. -/
structure ProfilePatch where
  name : Option String := none
  email : Option String := none
deriving Repr, DecidableEq

/-- `{...user, ...value, updatedAt: new Date().toISOString()}`
(`src/service_users/index.js:295-299`). -/
def applyPatch (u : User) (p : ProfilePatch) (now : String) : User :=
  { u with
    name := p.name.getD u.name
    email := p.email.getD u.email
    updatedAt := now }

/-- The `PUT /v1/users/profile` handler body, `src/service_users/index.js:252-319`.
Joi validation is abstracted as the `validation` parameter (the `error` half
of `updateProfileSchema.validate`); `now` is the update timestamp. -/
def updateProfileHandler (db : UsersDb) (validation : Option String)
    (authedId : String) (p : ProfilePatch) (now : String) : Nat × Envelope UserJson :=
  match validation with
  | some msg => (400, errEnvelope "VALIDATION_ERROR" msg)
  | none =>
    match findUserById db authedId with
    | none => (404, errEnvelope "USER_NOT_FOUND" "User not found")
    | some user =>
      let emailConflict :=
        match p.email with
        | some e => e != user.email && (findUserByEmail db e).isSome
        | none => false
      if emailConflict then (409, errEnvelope "EMAIL_EXISTS" "Email already in use")
      else (200, { success := true, data := some (sanitizeUser (applyPatch user p now)) })

/-- The route `app.put('/v1/users/profile', authMiddleware, ...)`
(`src/service_users/index.js:252`). -/
def putProfileRoute (db : UsersDb) (verify : String → Option Identity)
    (authHeader : Option String) (validation : Option String) (p : ProfilePatch)
    (now : String) : Nat × Envelope UserJson :=
  match authMiddleware verify authHeader with
  | .error e => e
  | .ok user => updateProfileHandler db validation user.id p now

/-- The `data` object of a successful login (`src/service_users/index.js:198-204`):
`{token, user: sanitizeUser(user)}`. -/
structure LoginData where
  token : String
  user : UserJson
deriving Repr, DecidableEq

/-- The `POST /v1/users/login` handler, `src/service_users/index.js:155-215`.
Joi validation is abstracted as `validation`; `bcryptCompare hash` is the
opaque `bcrypt.compare(value.password, hash)`; `sign` is `generateToken`. -/
def loginHandler (db : UsersDb) (validation : Option String) (email : String)
    (bcryptCompare : String → Bool) (sign : User → String) : Nat × Envelope LoginData :=
  match validation with
  | some msg => (400, errEnvelope "VALIDATION_ERROR" msg)
  | none =>
    match findUserByEmail db email with
    | none => (401, errEnvelope "INVALID_CREDENTIALS" "Invalid email or password")
    | some user =>
      if bcryptCompare user.passwordHash then
        (200, { success := true, data := some ⟨sign user, sanitizeUser user⟩ })
      else (401, errEnvelope "INVALID_CREDENTIALS" "Invalid email or password")

/-- The `data` object of `GET /v1/users` (`src/service_users/index.js:346-357`). -/
structure UsersListData where
  users : List UserJson
  page : Nat
  limit : Nat
  total : Nat
  totalPages : Nat
deriving Repr, DecidableEq

/-- The `GET /v1/users` handler body (after `authMiddleware` and the
admin-role gate), `src/service_users/index.js:322-368`: optional role
filter, `slice(startIndex, endIndex)` pagination, `map(sanitizeUser)`.
`Math.ceil(total/limit)` is embedded as `(total + limit - 1) / limit`. -/
def listUsersHandler (db : UsersDb) (page limit : Nat) (role : Option String) :
    Nat × Envelope UsersListData :=
  let users : List User := match role with
    | some r => db.filter (fun u => u.roles.contains r)
    | none => db
  let paginated := (users.drop ((page - 1) * limit)).take (page * limit - (page - 1) * limit)
  (200, { success := true
          data := some
            { users := paginated.map sanitizeUser
              page := page
              limit := limit
              total := users.length
              totalPages := (users.length + limit - 1) / limit } })

/-- The route `app.get('/v1/users/:userId', (req, res) => ...)`
(`src/service_users/index.js:371`): registered with NO auth middleware
("for internal service calls"), so the `Authorization` header is ignored and
the handler runs unconditionally. -/
def usersGetByIdRoute (db : UsersDb) (_authHeader : Option String)
    (userId : String) : Nat × Envelope UserJson :=
  usersGetById db userId

/-! ### Aggregation endpoint `GET /v1/users/:userId/details`
(`src/api_gateway/index.js:310-395`) -/

/-- One outcome of `Promise.allSettled` (`src/api_gateway/index.js:333`):
fulfilled with a value, or rejected. -/
inductive Settled (α : Type) where
  | fulfilled (value : α)
  | rejected
deriving Repr, DecidableEq

/-- An order as the aggregator sees it; the aggregator reads only the
`status` field of each order (`src/api_gateway/index.js:374`). -/
structure OrderEntity where
  status : String
deriving Repr, DecidableEq

/-- The `pagination` object of the orders backend's list payload; `total` is
read with `ordersData.pagination?.total` so each level may be absent. -/
structure PaginationInfo where
  total : Option Nat := none
deriving Repr, DecidableEq

/-- The `data` payload of the orders backend's list envelope:
`{orders, pagination}`, each possibly absent. -/
structure OrdersData where
  orders : Option (List OrderEntity) := none
  pagination : Option PaginationInfo := none
deriving Repr, DecidableEq

/-- The JS object update `acc[s] = (acc[s] || 0) + 1` on the histogram
accumulator (`src/api_gateway/index.js:374`): increment the entry for key `s`
in place, or append `(s, 1)` when the key is new. -/
def histInsert : List (String × Nat) → String → List (String × Nat)
  | [], s => [(s, 1)]
  | kv :: rest, s => if kv.1 = s then (kv.1, kv.2 + 1) :: rest else kv :: histInsert rest s

/-- `byStatus`: `orders.reduce((acc, order) => {acc[order.status] = (acc[order.status] || 0) + 1; return acc;}, {})`
(`src/api_gateway/index.js:373-376`). -/
def buildByStatus (orders : List OrderEntity) : List (String × Nat) :=
  orders.foldl (fun acc o => histInsert acc o.status) []

/-- The JS property read `h[s]` on a histogram object: `some count` when the
key is present (first occurrence), `none` (JS `undefined`) when absent. -/
def histGet : List (String × Nat) → String → Option Nat
  | [], _ => none
  | kv :: rest, s => if kv.1 = s then some kv.2 else histGet rest s

/-- `req.user.roles?.includes('admin')` (`src/api_gateway/index.js:315`). -/
def rolesIncludeAdmin (ident : Identity) : Bool :=
  match ident.roles with
  | some rs => rs.contains "admin"
  | none => false

/-- The body of the aggregator's HTTP response: either an error envelope or
the composite `{user, orders, ordersSummary: {total, byStatus}}` object
(`src/api_gateway/index.js:366-379`). -/
inductive AggBody (υ : Type) where
  | err (code message : String)
  | ok (user : Option υ) (orders : List OrderEntity) (total : Nat)
      (byStatus : List (String × Nat))
deriving Repr, DecidableEq

/-- The aggregator's result: HTTP status, response body, and whether control
reached the two `circuit.fire` calls (`src/api_gateway/index.js:333-343`). -/
structure AggResponse (υ : Type) where
  status : Nat
  body : AggBody υ
  calledBackends : Bool
deriving Repr, DecidableEq

/-- The `ordersData` computation of the aggregator,
`src/api_gateway/index.js:355-358`: the orders payload when the orders
lookup fulfilled with `success`, else the substitute
`{orders: [], pagination: {total: 0}}`. -/
def ordersDataOf (ordersResult : Settled (Envelope OrdersData)) : Option OrdersData :=
  match ordersResult with
  | .fulfilled oenv =>
    if oenv.success then oenv.data
    else some { orders := some [], pagination := some { total := some 0 } }
  | .rejected => some { orders := some [], pagination := some { total := some 0 } }

/-- The `GET /v1/users/:userId/details` handler
(`src/api_gateway/index.js:310-395`), as a function of the authenticated
identity, the target `userId`, and the two settled backend outcomes
(`userResult`, `ordersResult` of the `Promise.allSettled` at line 333).

Control flow, in source order:
1. lines 315-323: if `req.user.id !== userId && !req.user.roles?.includes('admin')`,
   return 403 `FORBIDDEN` before either backend call;
2. lines 345-353: if the user lookup was rejected or `!userResult.value?.success`,
   return 404 `USER_NOT_FOUND`;
3. lines 355-358: `ordersData` as computed by `ordersDataOf`;
4. line 370/372: when `ordersData` itself is absent (a fulfilled `success`
   orders envelope without `data`), the property read `ordersData.orders`
   throws, and the surrounding catch (lines 380-394) answers 500 `INTERNAL_ERROR`;
5. lines 366-379: 200 with `{user, orders, ordersSummary: {total, byStatus}}`,
   reading `ordersData.orders || []` and `ordersData.pagination?.total || 0`. -/
def aggregateDetails {υ : Type} (ident : Identity) (userId : String)
    (userResult : Settled (Envelope υ)) (ordersResult : Settled (Envelope OrdersData)) :
    AggResponse υ :=
  if ident.id ≠ userId ∧ rolesIncludeAdmin ident = false then
    ⟨403, .err "FORBIDDEN" "Access denied", false⟩
  else
    match userResult with
    | .rejected => ⟨404, .err "USER_NOT_FOUND" "User not found", true⟩
    | .fulfilled uenv =>
      if uenv.success = false then ⟨404, .err "USER_NOT_FOUND" "User not found", true⟩
      else
        match ordersDataOf ordersResult with
        | none => ⟨500, .err "INTERNAL_ERROR" "Internal server error", true⟩
        | some od =>
          let orders := od.orders.getD []
          let total := match od.pagination with
            | some pg => pg.total.getD 0
            | none => 0
          ⟨200, .ok uenv.data orders total (buildByStatus orders), true⟩

/-! ### Rate limiting (`src/api_gateway/index.js:33-61`, `:259-265`) -/

/-- One `express-rate-limit` instance's configuration: window length, maximal
hits per window, and the denial message body. -/
structure RateLimitConfig where
  windowMs : Nat
  maxHits : Nat
  message : Envelope Unit
deriving Repr, DecidableEq

/-- The fixed denial envelope of the strict auth limiter
(`src/api_gateway/index.js:54-60`). -/
def authLimitMessage : Envelope Unit :=
  errEnvelope "RATE_LIMIT_EXCEEDED" "Too many authentication attempts, please try again later."

/-- The strict `authLimiter` (`src/api_gateway/index.js:51-61`):
`windowMs: 15 * 60 * 1000, max: 5`. -/
def authLimiterConfig : RateLimitConfig :=
  { windowMs := 15 * 60 * 1000, maxHits := 5, message := authLimitMessage }

/-- One client key's counter in the limiter's memory store: hits counted in
the current fixed window, and the window's start time (ms). -/
structure LimiterState where
  count : Nat := 0
  windowStart : Nat := 0
deriving Repr, DecidableEq

/-- One request through an `express-rate-limit` gate at time `now` (ms):
a window that has elapsed resets the counter; the hit is counted; the request
is allowed iff the counted hits do not exceed `maxHits`. -/
def limiterStep (cfg : RateLimitConfig) (st : LimiterState) (now : Nat) :
    Bool × LimiterState :=
  let st := if st.windowStart + cfg.windowMs ≤ now then { count := 0, windowStart := now } else st
  let hits := st.count + 1
  (hits ≤ cfg.maxHits, { st with count := hits })

/-- What happens to a request at a rate-limited route: denied by the limiter
with a status and a body (no further middleware or handler runs), or passed
on to `forwardRequest`, i.e. a backend call is attempted through the breaker. -/
inductive RouteOutcome where
  | denied (status : Nat) (body : Envelope Unit)
  | forwardedToBackend
deriving Repr, DecidableEq

/-- A strict-limited route, e.g.
`app.post('/v1/users/register', authLimiter, (req, res) => forwardRequest(...))`
(`src/api_gateway/index.js:259-261`): the limiter middleware runs first; a
denied request is answered 429 with the configured message and never reaches
`forwardRequest`. -/
def strictLimitedRoute (cfg : RateLimitConfig) (st : LimiterState) (now : Nat) :
    RouteOutcome × LimiterState :=
  let (allowed, st') := limiterStep cfg st now
  if allowed then (.forwardedToBackend, st')
  else (.denied 429 cfg.message, st')

/-! ### Concrete sample values used by witnesses and counterexamples -/

/-- A sample stored user record. -/
def demoStoredUser : User :=
  { id := "u1", email := "alice@example.com", passwordHash := "h4sh",
    name := "Alice", roles := ["user"], createdAt := "t0", updatedAt := "t0" }

/-- A sample orders list with a repeated status. -/
def demoOrders : List OrderEntity :=
  [⟨"created"⟩, ⟨"completed"⟩, ⟨"created"⟩]

/-- A fulfilled orders-backend envelope carrying `demoOrders`. -/
def demoOrdersEnvelope : Envelope OrdersData :=
  { success := true
    data := some { orders := some demoOrders, pagination := some { total := some 3 } } }

/-! ## Theorems for the claims -/

/-- C1: the claim says only a timeout or transport-level failure is recorded
as a breaker failure, and that a completed backend response whose envelope
has `success=false` leaves the breaker unaffected.  Evaluating the code at
the failing input refutes this: the users backend answers a lookup of an
unknown id with HTTP 404 and a `success=false` envelope — a completed
response, not a transport failure — yet the gateway's breaker action rejects
it (axios's default `validateStatus` accepts only 2xx), so the breaker
records a breaker-level FAILURE, not a success. -/
theorem business_error_response_is_breaker_failure :
    (usersGetById [] "missing-user").2.success = false ∧
    (usersGetById [] "missing-user").1 = 404 ∧
    recordCall {} (TransportResult.ok (usersGetById [] "missing-user").1
        (usersGetById [] "missing-user").2)
      = { successes := 0, failures := 1 } := by
  decide

/-- C2: the claim says the forwarder maps the breaker-fallback envelope
(`success=false`, `error.code="SERVICE_UNAVAILABLE"`) to HTTP 503.
Evaluating the code's mapping at that input: the ternary chain in
`forwardRequest` has no `SERVICE_UNAVAILABLE` branch, so the fallback
envelope falls through to 500, not 503. -/
theorem fallback_envelope_maps_to_500 :
    statusCodeOf (usersFallbackEnvelope : Envelope Unit) = 500 ∧
    statusCodeOf (usersFallbackEnvelope : Envelope Unit) ≠ 503 ∧
    statusCodeOf (ordersFallbackEnvelope : Envelope Unit) = 500 := by
  decide

/-- C3: the forwarder's envelope-to-status mapping is total (it is a total
function by construction) and deterministic, with: `success=true` ↦ 200;
`success=false` with `error.code="VALIDATION_ERROR"` ↦ 400; and
`success=false` with an error code in no row of the spec's mapping table
↦ 500. -/
theorem statusCode_mapping_total_deterministic {α : Type} (e : Envelope α) :
    (e.success = true → statusCodeOf e = 200) ∧
    (e.success = false → errCode e = some "VALIDATION_ERROR" → statusCodeOf e = 400) ∧
    (e.success = false → (∀ c, errCode e = some c → c ∉ specStatusTableCodes) →
      statusCodeOf e = 500) := by
  refine ⟨fun h => by simp [statusCodeOf, h], fun h hc => by simp [statusCodeOf, h, hc], ?_⟩
  intro h hc
  match hec : errCode e with
  | none => simp [statusCodeOf, h, hec]
  | some c =>
    have hmem := hc c hec
    simp only [specStatusTableCodes, List.mem_cons, List.not_mem_nil, or_false, not_or] at hmem
    obtain ⟨h1, h2, h3, h4, h5, h6, h7, h8, h9, h10⟩ := hmem
    simp [statusCodeOf, h, hec, h1, h2, h4, h5, h6, h7, h8]

/-- Witness for C3 at concrete envelopes: a success envelope, a
`VALIDATION_ERROR` envelope, and an envelope with the unmapped code
`INVALID_CREDENTIALS` (emitted by the users backend's login handler but in
no row of the table). -/
theorem statusCode_mapping_witness :
    statusCodeOf ({ success := true } : Envelope Unit) = 200 ∧
    statusCodeOf (errEnvelope "VALIDATION_ERROR" "m" : Envelope Unit) = 400 ∧
    statusCodeOf (errEnvelope "INVALID_CREDENTIALS" "m" : Envelope Unit) = 500 :=
  ⟨(statusCode_mapping_total_deterministic _).1 rfl,
   (statusCode_mapping_total_deterministic _).2.1 rfl rfl,
   (statusCode_mapping_total_deterministic _).2.2 rfl
     (fun c hc => by
        simp only [errCode, errEnvelope, Option.map_some] at hc
        cases hc
        decide)⟩

/-- C4: a caller whose identity id differs from the target `userId` and whose
roles do not include `admin` receives 403 `FORBIDDEN`, and control never
reaches the two `circuit.fire` calls, whatever the two lookups would have
produced. -/
theorem aggregator_forbidden_no_backend_calls {υ : Type} (ident : Identity)
    (userId : String) (u : Settled (Envelope υ)) (o : Settled (Envelope OrdersData))
    (hid : ident.id ≠ userId) (hroles : rolesIncludeAdmin ident = false) :
    aggregateDetails ident userId u o
      = ⟨403, .err "FORBIDDEN" "Access denied", false⟩ := by
  unfold aggregateDetails
  rw [if_pos ⟨hid, hroles⟩]

/-- Witness for C4: a non-admin caller `u2` asking for `u1`'s details. -/
theorem aggregator_forbidden_witness :
    aggregateDetails ⟨"u2", "bob@example.com", some ["user"]⟩ "u1"
        (Settled.rejected : Settled (Envelope Unit)) Settled.rejected
      = ⟨403, .err "FORBIDDEN" "Access denied", false⟩ :=
  aggregator_forbidden_no_backend_calls _ _ _ _ (by decide) (by decide)

/-- C7 counterexample: the users backend's `GET /v1/users/:id` route is
registered with no auth middleware, so a request carrying no Authorization
header at all is served normally (200 with the user), not rejected with 401
as the claim states. -/
theorem users_get_by_id_unauthenticated_not_401 :
    (usersGetByIdRoute [demoStoredUser] none "u1").1 = 200 ∧
    (usersGetByIdRoute [demoStoredUser] none "u1").1 ≠ 401 := by
  decide

/-- C7 amended: the users backend's routes that are registered with
`authMiddleware` (GET/PUT `/v1/users/profile`) do reject a request without a
bearer credential with 401, but `GET /v1/users/:id` is registered without
auth middleware: it ignores the Authorization header entirely and serves the
request from the store. -/
theorem users_backend_auth_coverage (db : UsersDb) (verify : String → Option Identity)
    (userId : String) (validation : Option String) (p : ProfilePatch) (now : String)
    (h : Option String) :
    (getProfileRoute db verify none).1 = 401 ∧
    (putProfileRoute db verify none validation p now).1 = 401 ∧
    usersGetByIdRoute db h userId = usersGetById db userId :=
  ⟨rfl, rfl, rfl⟩

/-- C8: a client whose strict-limiter counter already holds 5 counted
requests makes a 6th request inside the same 15-minute window: the limiter
denies it with HTTP 429 and the fixed `RATE_LIMIT_EXCEEDED` envelope, and the
route outcome is `denied`, i.e. `forwardRequest` (and hence any backend call)
is never reached. -/
theorem sixth_auth_request_rate_limited (st : LimiterState) (now : Nat)
    (hcount : st.count = 5) (hwin : now < st.windowStart + authLimiterConfig.windowMs) :
    (strictLimitedRoute authLimiterConfig st now).1
      = RouteOutcome.denied 429 authLimitMessage := by
  have hreset : ¬ (st.windowStart + 900000 ≤ now) := by
    simp only [authLimiterConfig] at hwin
    omega
  simp [strictLimitedRoute, limiterStep, hreset, hcount, authLimiterConfig, authLimitMessage]

/-- Witness for C8: counter at 5 in a window that started at time 0, 6th
request arriving at 1000 ms. -/
theorem sixth_auth_request_rate_limited_witness :
    (strictLimitedRoute authLimiterConfig ⟨5, 0⟩ 1000).1
      = RouteOutcome.denied 429 authLimitMessage :=
  sixth_auth_request_rate_limited ⟨5, 0⟩ 1000 rfl (by decide)

/-- C5: for an authorized aggregate request whose user-lookup settled
rejected or fulfilled with a `success=false` envelope, the response is 404
`USER_NOT_FOUND`; the statement's right-hand side does not depend on the
orders-lookup outcome `o`, so the result is the same for every possible
orders-lookup outcome. -/
theorem aggregator_user_failure_is_404 {υ : Type} (ident : Identity) (userId : String)
    (u : Settled (Envelope υ)) (o : Settled (Envelope OrdersData))
    (hauth : ¬(ident.id ≠ userId ∧ rolesIncludeAdmin ident = false))
    (hfail : u = .rejected ∨ ∃ env, u = .fulfilled env ∧ env.success = false) :
    aggregateDetails ident userId u o
      = ⟨404, .err "USER_NOT_FOUND" "User not found", true⟩ := by
  unfold aggregateDetails
  rw [if_neg hauth]
  rcases hfail with h | ⟨env, he, hs⟩
  · subst h; rfl
  · subst he; simp [hs]

/-- Witness for C5: the caller asks for their own id and the user-lookup
fulfilled with the breaker's fallback envelope (`success=false`); the
orders-lookup outcome is arbitrary (here: rejected). -/
theorem aggregator_user_failure_witness :
    aggregateDetails ⟨"u1", "alice@example.com", some ["user"]⟩ "u1"
        (Settled.fulfilled (usersFallbackEnvelope : Envelope Unit)) Settled.rejected
      = ⟨404, .err "USER_NOT_FOUND" "User not found", true⟩ :=
  aggregator_user_failure_is_404 _ _ _ _ (by decide) (Or.inr ⟨_, rfl, rfl⟩)

/-- C6: for an authorized aggregate request whose user-lookup fulfilled with
a `success=true` envelope while the orders-lookup was rejected or fulfilled
with `success=false`, the response is 200 with the user data, an empty orders
list, `ordersSummary.total = 0` and an empty `byStatus` histogram. -/
theorem aggregator_partial_failure_degrades {υ : Type} (ident : Identity)
    (userId : String) (uenv : Envelope υ) (o : Settled (Envelope OrdersData))
    (hauth : ¬(ident.id ≠ userId ∧ rolesIncludeAdmin ident = false))
    (hus : uenv.success = true)
    (hof : o = .rejected ∨ ∃ oenv, o = .fulfilled oenv ∧ oenv.success = false) :
    aggregateDetails ident userId (.fulfilled uenv) o
      = ⟨200, .ok uenv.data [] 0 [], true⟩ := by
  unfold aggregateDetails
  rw [if_neg hauth]
  rcases hof with h | ⟨oenv, he, hs⟩
  · subst h; simp [hus, ordersDataOf, buildByStatus]
  · subst he; simp [hus, hs, ordersDataOf, buildByStatus]

/-- Witness for C6: caller `u1` asks for `u1`; user-lookup succeeds, the
orders-lookup fulfilled with the orders breaker's fallback envelope. -/
theorem aggregator_partial_failure_witness :
    aggregateDetails ⟨"u1", "alice@example.com", some ["user"]⟩ "u1"
        (Settled.fulfilled ({ success := true, data := some () } : Envelope Unit))
        (Settled.fulfilled ordersFallbackEnvelope)
      = ⟨200, .ok (some ()) [] 0 [], true⟩ :=
  aggregator_partial_failure_degrades _ _ _ _ (by decide) rfl (Or.inr ⟨_, rfl, rfl⟩)

/-- The sanitized user object exposes exactly the stored keys minus
`passwordHash`, in stored order. -/
theorem sanitizeUser_keys (u : User) :
    (sanitizeUser u).map Prod.fst
      = ["id", "email", "name", "roles", "createdAt", "updatedAt"] := rfl

/-- `passwordHash` never survives `sanitizeUser`. -/
theorem passwordHash_not_in_sanitized (u : User) :
    "passwordHash" ∉ (sanitizeUser u).map Prod.fst := by
  rw [sanitizeUser_keys]; decide

/-- C10: every success envelope containing user data produced by the users
service's login, get-profile, update-profile, list-users and get-user-by-id
operations carries user objects without a `passwordHash` key. -/
theorem no_passwordHash_in_user_responses :
    (∀ db uid fields, (usersGetById db uid).2.data = some fields →
        "passwordHash" ∉ fields.map Prod.fst) ∧
    (∀ db aid fields, (getProfileHandler db aid).2.data = some fields →
        "passwordHash" ∉ fields.map Prod.fst) ∧
    (∀ db v aid p now fields, (updateProfileHandler db v aid p now).2.data = some fields →
        "passwordHash" ∉ fields.map Prod.fst) ∧
    (∀ db v email cmp sign d, (loginHandler db v email cmp sign).2.data = some d →
        "passwordHash" ∉ d.user.map Prod.fst) ∧
    (∀ db page limit role d, (listUsersHandler db page limit role).2.data = some d →
        ∀ fields ∈ d.users, "passwordHash" ∉ fields.map Prod.fst) := by
  refine ⟨?_, ?_, ?_, ?_, ?_⟩
  · intro db uid fields hf
    cases hu : findUserById db uid with
    | none => simp [usersGetById, hu, errEnvelope] at hf
    | some u =>
      simp only [usersGetById, hu, Option.some.injEq] at hf
      subst hf
      exact passwordHash_not_in_sanitized u
  · intro db aid fields hf
    cases hu : findUserById db aid with
    | none => simp [getProfileHandler, hu, errEnvelope] at hf
    | some u =>
      simp only [getProfileHandler, hu, Option.some.injEq] at hf
      subst hf
      exact passwordHash_not_in_sanitized u
  · intro db v aid p now fields hf
    cases v with
    | some msg => simp [updateProfileHandler, errEnvelope] at hf
    | none =>
      cases hu : findUserById db aid with
      | none => simp [updateProfileHandler, hu, errEnvelope] at hf
      | some u =>
        by_cases hc : (match p.email with
            | some e => e != u.email && (findUserByEmail db e).isSome
            | none => false) = true
        · simp [updateProfileHandler, hu, hc, errEnvelope] at hf
        · simp only [updateProfileHandler, hu, hc, Bool.false_eq_true, if_false,
            Option.some.injEq] at hf
          subst hf
          exact passwordHash_not_in_sanitized _
  · intro db v email cmp sign d hf
    cases v with
    | some msg => simp [loginHandler, errEnvelope] at hf
    | none =>
      cases hu : findUserByEmail db email with
      | none => simp [loginHandler, hu, errEnvelope] at hf
      | some u =>
        by_cases hcmp : cmp u.passwordHash = true
        · simp only [loginHandler, hu, hcmp, if_true, Option.some.injEq] at hf
          subst hf
          exact passwordHash_not_in_sanitized u
        · simp [loginHandler, hu, hcmp, errEnvelope] at hf
  · intro db page limit role d hf fields hmem
    simp only [listUsersHandler, Option.some.injEq] at hf
    subst hf
    simp only [List.mem_map] at hmem
    obtain ⟨u, _, rfl⟩ := hmem
    exact passwordHash_not_in_sanitized u

/-- Witness for C10: the get-user-by-id operation on a concrete store. -/
theorem no_passwordHash_witness :
    "passwordHash" ∉ (sanitizeUser demoStoredUser).map Prod.fst :=
  no_passwordHash_in_user_responses.1 [demoStoredUser] "u1" (sanitizeUser demoStoredUser) rfl

/-- Reading the histogram after one `acc[t] = (acc[t] || 0) + 1` update:
the entry for `t` grows by one (from a default of 0), every other entry is
untouched. -/
theorem histGet_histInsert (acc : List (String × Nat)) (t s : String) :
    histGet (histInsert acc t) s =
      if s = t then some ((histGet acc s).getD 0 + 1) else histGet acc s := by
  induction acc with
  | nil =>
    by_cases h : s = t
    · subst h; simp [histInsert, histGet]
    · have ht : t ≠ s := fun e => h e.symm
      simp [histInsert, histGet, h, ht]
  | cons kv rest ih =>
    by_cases hk : kv.1 = t
    · by_cases h : s = t
      · subst h; simp [histInsert, histGet, hk]
      · have hts : t ≠ s := fun e => h e.symm
        simp [histInsert, histGet, hk, hts, h]
    · by_cases h : s = t
      · subst h
        simp [histInsert, histGet, hk, ih]
      · by_cases hks : kv.1 = s
        · simp [histInsert, histGet, hk, hks, h]
        · simp [histInsert, histGet, hk, hks, h, ih]

/-- One `histInsert` adds exactly one to the sum of all counts. -/
theorem histInsert_sum (acc : List (String × Nat)) (t : String) :
    ((histInsert acc t).map Prod.snd).sum = (acc.map Prod.snd).sum + 1 := by
  induction acc with
  | nil => simp [histInsert]
  | cons kv rest ih =>
    by_cases hk : kv.1 = t
    · simp only [histInsert, if_pos hk, List.map_cons, List.sum_cons]
      omega
    · simp only [histInsert, if_neg hk, List.map_cons, List.sum_cons, ih]
      omega

/-- Reading the histogram built by folding `histInsert` over an orders list:
the entry for `s` is the number of orders with status `s` added onto whatever
the accumulator already held, and keys absent from both stay absent. -/
theorem histGet_foldl (orders : List OrderEntity) (acc : List (String × Nat)) (s : String) :
    histGet (orders.foldl (fun a o => histInsert a o.status) acc) s =
      if orders.countP (fun o => o.status == s) = 0 then histGet acc s
      else some ((histGet acc s).getD 0 + orders.countP (fun o => o.status == s)) := by
  induction orders generalizing acc with
  | nil => simp
  | cons o os ih =>
    rw [List.foldl_cons, ih, histGet_histInsert, List.countP_cons]
    cases hb : o.status == s with
    | false =>
      have h : o.status ≠ s := by
        intro e
        rw [e] at hb
        simp at hb
      have hs2 : s ≠ o.status := fun e => h e.symm
      generalize os.countP (fun o2 => o2.status == s) = cnt
      simp [hs2]
    | true =>
      have h : s = o.status := (beq_iff_eq.mp hb).symm
      generalize os.countP (fun o2 => o2.status == s) = cnt
      by_cases hz : cnt = 0
      · subst hz
        simp [h]
      · simp only [h, if_pos rfl, Option.getD_some, if_neg hz]
        simp
        omega

/-- The sum of all histogram counts after the fold is the accumulator's sum
plus the number of orders folded in. -/
theorem hist_sum_foldl (orders : List OrderEntity) (acc : List (String × Nat)) :
    ((orders.foldl (fun a o => histInsert a o.status) acc).map Prod.snd).sum
      = (acc.map Prod.snd).sum + orders.length := by
  induction orders generalizing acc with
  | nil => simp
  | cons o os ih =>
    rw [List.foldl_cons, ih, histInsert_sum]
    simp only [List.length_cons]
    omega

/-- Every 200 `ok` response of the aggregator carries exactly the
`byStatus` histogram built from its own orders list. -/
theorem aggregate_ok_shape {υ : Type} (ident : Identity) (userId : String)
    (u : Settled (Envelope υ)) (o : Settled (Envelope OrdersData))
    (user : Option υ) (orders : List OrderEntity) (total : Nat)
    (bs : List (String × Nat)) (called : Bool)
    (h : aggregateDetails ident userId u o
          = ⟨200, AggBody.ok user orders total bs, called⟩) :
    bs = buildByStatus orders := by
  unfold aggregateDetails at h
  split at h
  · simp at h
  · split at h
    · simp at h
    · split at h
      · simp at h
      · split at h
        · simp at h
        · simp only [AggResponse.mk.injEq, AggBody.ok.injEq] at h
          obtain ⟨-, ⟨-, horders, -, hbs⟩, -⟩ := h
          rw [← hbs, ← horders]

/-- C9: for every orders list carried by a successful (200) aggregate
response, the accompanying `ordersSummary.byStatus` object maps each status
occurring among the orders to the (positive) number of orders having that
status, has no entry for any other status, and its counts sum to the number
of returned orders. -/
theorem byStatus_histogram_correct {υ : Type} (ident : Identity) (userId : String)
    (u : Settled (Envelope υ)) (o : Settled (Envelope OrdersData))
    (user : Option υ) (orders : List OrderEntity) (total : Nat)
    (bs : List (String × Nat)) (called : Bool)
    (h : aggregateDetails ident userId u o
          = ⟨200, AggBody.ok user orders total bs, called⟩) :
    (∀ s, s ∈ orders.map OrderEntity.status →
        histGet bs s = some (orders.countP (fun o2 => o2.status == s)) ∧
        0 < orders.countP (fun o2 => o2.status == s)) ∧
    (∀ s, s ∉ orders.map OrderEntity.status → histGet bs s = none) ∧
    (bs.map Prod.snd).sum = orders.length := by
  obtain rfl := aggregate_ok_shape ident userId u o user orders total bs called h
  refine ⟨?_, ?_, ?_⟩
  · intro s hs
    have hpos : 0 < orders.countP (fun o2 => o2.status == s) := by
      obtain ⟨o2, ho2, rfl⟩ := List.mem_map.mp hs
      exact List.countP_pos_iff.mpr ⟨o2, ho2, by simp⟩
    refine ⟨?_, hpos⟩
    have hz : ¬ (orders.countP (fun o2 => o2.status == s) = 0) := by omega
    rw [buildByStatus, histGet_foldl]
    simp [hz, histGet]
  · intro s hs
    have hz : orders.countP (fun o2 => o2.status == s) = 0 := by
      by_contra hnz
      obtain ⟨o2, ho2, hp⟩ := List.countP_pos_iff.mp (Nat.pos_of_ne_zero hnz)
      exact hs (List.mem_map.mpr ⟨o2, ho2, beq_iff_eq.mp hp⟩)
    rw [buildByStatus, histGet_foldl]
    simp [hz, histGet]
  · rw [buildByStatus, hist_sum_foldl]
    simp

/-- Witness for C9: a concrete successful aggregate response over
`demoOrders = [created, completed, created]`. -/
theorem byStatus_histogram_witness :
    histGet (buildByStatus demoOrders) "created"
        = some (demoOrders.countP (fun o2 => o2.status == "created")) ∧
    histGet (buildByStatus demoOrders) "cancelled" = none ∧
    ((buildByStatus demoOrders).map Prod.snd).sum = demoOrders.length := by
  have hagg : aggregateDetails ⟨"u1", "alice@example.com", some ["user"]⟩ "u1"
      (Settled.fulfilled ({ success := true, data := some () } : Envelope Unit))
      (Settled.fulfilled demoOrdersEnvelope)
      = ⟨200, AggBody.ok (some ()) demoOrders 3 (buildByStatus demoOrders), true⟩ := by
    decide
  have h := byStatus_histogram_correct _ _ _ _ _ _ _ _ _ hagg
  exact ⟨(h.1 "created" (by decide)).1, h.2.1 "cancelled" (by decide), h.2.2⟩

end MikroTask
